import Mathlib

/-!
Shallow embedding of `src/main.py` of the repository
Building_Permits_by_Waste_Collection_Area.

The program is a linear batch pipeline: stage three datasets into a local
workspace, dissolve building polygons by `BL_ID`, spatially join them
(one-to-one, INTERSECT) with waste collection areas, attribute-join the
building-use table on `BL_ID`, export rows with `Join_Count > 0`, then
aggregate with pandas (`summarize_units`) and export CSV/Excel reports
with threshold sanity checks.

Tables are embedded as Lists of rows; pandas/arcpy operations are embedded
as List functions following the library semantics actually invoked
(`FeatureClassToNumPyArray` with `null_value` 0, `query("DWEL_UNITS <= 6")`,
`groupby(...).agg({sum, count})`, `df.loc["TOTAL"] = df.sum()` which is
pandas update-or-enlarge assignment, `Dissolve` on `BL_ID`,
`SpatialJoin` JOIN_ONE_TO_ONE / KEEP_ALL / INTERSECT with the default
"first" merge rule, `JoinField` taking the first match, and the
`Join_Count > 0` filtered export).  pandas `groupby` sorts group keys;
groups are enumerated here via `List.dedup` instead of lexicographic
sorting of strings.  Every claim statement below is insensitive to that
order; the one theorem that asserts a concrete row order — the C2
counterexample — is evaluated on an input whose areas already occur in
sorted order, so on that input the modelled table coincides row for row
with the program's.
-/

/-- A row of the joined flat table handed to `summarize_units`:
`BL_ID`, `COLL_AREA`, and a nullable `DWEL_UNITS`. -/
structure Row where
  bl_id : String
  coll_area : String
  dwel_units : Option Int
  deriving DecidableEq, Repr

/-- A row of the pandas DataFrame built by `arcpy.da.FeatureClassToNumPyArray`
with `null_value={"DWEL_UNITS": 0}`: NULL unit counts become 0. -/
structure DRow where
  bl_id : String
  coll_area : String
  dwel_units : Int
  deriving DecidableEq, Repr

/-- A row of `df_summary_one`: grouped by `(COLL_AREA, BL_ID)`, with the
sum of `DWEL_UNITS` and the count of `BL_ID` values in the group. -/
structure SRow where
  coll_area : String
  bl_id : String
  dwel_units : Int
  bl_count : Nat
  deriving DecidableEq, Repr

/-- A row of `df_final`: grouped by `COLL_AREA`, with the sum of the
per-building unit sums and the count of buildings (rows of
`df_summary_one`) in the area.  The index label is `coll_area`
("TOTAL" for the grand-total row). -/
structure FRow where
  coll_area : String
  dwel_units : Int
  bl_count : Nat
  deriving DecidableEq, Repr

/-- `arcpy.da.FeatureClassToNumPyArray(..., null_value={"DWEL_UNITS": 0})`
followed by `pd.DataFrame`: NULL dwelling-unit values are read as 0
(main.py lines 68-73). -/
def toDataFrame (t : List Row) : List DRow :=
  t.map fun r => ⟨r.bl_id, r.coll_area, r.dwel_units.getD 0⟩

/-- `df.query("DWEL_UNITS <= 6")` (main.py line 77): row-level filter. -/
def queryLe6 (df : List DRow) : List DRow :=
  df.filter fun r => r.dwel_units ≤ 6

/-- The `case_fields = ["COLL_AREA", "BL_ID"]` group key. -/
def dkey (r : DRow) : String × String := (r.coll_area, r.bl_id)

/-- `.groupby(["COLL_AREA", "BL_ID"]).agg({"DWEL_UNITS": "sum", "BL_ID": "count"})`
(main.py line 77): one output row per distinct key, carrying the sum of
`DWEL_UNITS` and the size of the group (count of non-null `BL_ID`s). -/
def summaryOne (df : List DRow) : List SRow :=
  ((df.map dkey).dedup).map fun k =>
    let grp := df.filter fun r => dkey r = k
    ⟨k.1, k.2, (grp.map DRow.dwel_units).sum, grp.length⟩

/-- `df_summary_one.groupby("COLL_AREA").agg({"DWEL_UNITS": "sum", "BL_ID": "count"})`
(main.py line 80): one output row per distinct area, summing the unit sums
and counting the (area, building) rows. -/
def groupFinal (s : List SRow) : List FRow :=
  ((s.map SRow.coll_area).dedup).map fun a =>
    let grp := s.filter fun r => r.coll_area = a
    ⟨a, (grp.map SRow.dwel_units).sum, grp.length⟩

/-- `df_final.loc["TOTAL"] = df_final.sum()` (main.py line 83).  pandas
`.loc` label assignment sets every existing row with index label "TOTAL"
to the column sums, and only *appends* a new row (setting-with-enlargement)
when no row carries that label.  The column sums are computed before the
assignment. -/
def locSetTotal (rows : List FRow) : List FRow :=
  let tot : FRow := ⟨"TOTAL", (rows.map FRow.dwel_units).sum, (rows.map FRow.bl_count).sum⟩
  if rows.any fun r => r.coll_area = "TOTAL" then
    rows.map fun r => if r.coll_area = "TOTAL" then tot else r
  else
    rows ++ [tot]

/-- `summarize_units` (main.py lines 53-98): build the DataFrame (NULL units
to 0), filter rows to `DWEL_UNITS <= 6`, group by `(COLL_AREA, BL_ID)`
summing units and counting buildings, re-group by `COLL_AREA`, append the
grand-total row, and return `(df_final, df_summary_one)`.  The `rename`
call only relabels columns and the CSV export is modelled in `runEvents`. -/
def summarize_units (t : List Row) : List FRow × List SRow :=
  let df := toDataFrame t
  let s := summaryOne (queryLe6 df)
  (locSetTotal (groupFinal s), s)

/-! ## Geometry pipeline (`waste_analysis`, main.py lines 101-171)

Building polygons are rows carrying a `BL_ID` (several fragments may share
one `BL_ID`); collection areas are rows carrying an area identifier.  The
geometry itself is abstracted by an `inter : String → String → Bool`
relation: `inter b a` holds when the dissolved polygon of building `b`
intersects the polygon of area `a` (`match_option="INTERSECT"`). -/

/-- `arcpy.Dissolve_management(..., dissolve_field=["BL_ID"], multi_part="MULTI_PART")`
(main.py lines 119-126): one (multi-part) output feature per distinct
`BL_ID` of the input fragments. -/
def Dissolve (polys : List String) : List String :=
  polys.dedup

/-- A row of the spatial-join output `buildings_w_waste_areas`:
building id, `Join_Count`, and the joined area attributes (none when no
area matched, kept because of `join_type="KEEP_ALL"`). -/
structure SJRow where
  bl_id : String
  join_count : Nat
  coll_area : Option String
  deriving DecidableEq, Repr

/-- `arcpy.SpatialJoin_analysis(..., join_operation="JOIN_ONE_TO_ONE",
join_type="KEEP_ALL", match_option="INTERSECT")` (main.py lines 131-140):
one output row per target building; `Join_Count` is the number of
intersecting areas and the joined attributes come from the first
intersecting area (the default "First" field merge rule); buildings with
no intersecting area are kept with `Join_Count = 0` and NULL area. -/
def SpatialJoin (targets : List String) (areas : List String)
    (inter : String → String → Bool) : List SJRow :=
  targets.map fun b =>
    let hits := areas.filter fun a => inter b a
    ⟨b, hits.length, hits.head?⟩

/-- `arcpy.JoinField_management(..., in_field="BL_ID", join_table=building_use,
join_field="BL_ID")` (main.py lines 144-150): in place, each row gains the
`DWEL_UNITS` attribute of the first `building_use` record with the same
`BL_ID` (NULL when there is none or when the matched value is NULL). -/
def JoinField (rows : List SJRow) (use : List (String × Option Int)) :
    List (SJRow × Option Int) :=
  rows.map fun r => (r, (use.find? fun u => u.1 = r.bl_id).bind fun u => u.2)

/-- `waste_analysis` (main.py lines 101-171): dissolve by `BL_ID`, spatial
join with the collection areas, attribute-join the building-use table, and
export the rows with `where_clause="Join_Count > 0"`
(`FeatureClassToFeatureClass_conversion`, lines 156-161).  The result is
the flat `(BL_ID, COLL_AREA, DWEL_UNITS)` table handed to
`summarize_units`. -/
def waste_analysis (polys : List String) (use : List (String × Option Int))
    (areas : List String) (inter : String → String → Bool) : List Row :=
  let joined := JoinField (SpatialJoin (Dissolve polys) areas inter) use
  (joined.filter fun p => p.1.join_count > 0).map fun p =>
    ⟨p.1.bl_id, (p.1.coll_area).getD "", p.2⟩

/-! ## Run model (`__main__`, main.py lines 174-254)

The observable effects of one run, after the staging copies, are modelled
as a list of events: log lines at their levels, CSV writes, and the Excel
write.  `summarize_units` writes its three CSV files before returning
(lines 94-96); back in `__main__`, `df_final.loc["AREA 1", ...]`
(line 221) raises `KeyError` when no row is labelled "AREA 1", which jumps
to the `except` handler (one error-level line, lines 252-254) before the
two remaining sanity checks and the Excel export can run. -/

/-- Which in-memory table an export event writes. -/
inductive TableId where
  | final
  | summary
  | original
  deriving DecidableEq, Repr

/-- Which sanity check or progress message a log line belongs to. -/
inductive CheckTag where
  | joinedRecords
  | summarizing
  | summaryRows
  | area1Units
  | exported
  deriving DecidableEq, Repr

/-- An observable effect of the run. -/
inductive Event where
  | csvWrite (name : String) (table : TableId)
  | excelWrite (sheets : List (String × TableId))
  | logDebug (tag : CheckTag)
  | logWarning (tag : CheckTag)
  | logError
  deriving DecidableEq, Repr

/-- The three `to_csv` writes of `summarize_units` (main.py lines 94-96). -/
def csvEvents : List Event :=
  [.csvWrite "df_final.csv" .final, .csvWrite "df_summary.csv" .summary,
   .csvWrite "df_original.csv" .original]

/-- The Excel export (main.py lines 240-242): one workbook, sheet "final"
holding `df_final` and sheet "summary" holding `df_summarized`. -/
def excelEvent : Event :=
  .excelWrite [("final", .final), ("summary", .summary)]

/-- `df_final.loc["AREA 1", "SUM of DWELLING UNITS"]` (main.py line 221):
the unit sum of the first row labelled "AREA 1", `KeyError` (`none`) when
no row carries that label. -/
def lookupArea1 (fin : List FRow) : Option Int :=
  (fin.find? fun r => r.coll_area = "AREA 1").map FRow.dwel_units

/-- The events of one run from the joined-record count check onwards
(main.py lines 163-169 and 214-254), on the flat table `t` returned by
`waste_analysis`; `arcpy.GetCount_management` on that table yields
`t.length`.  An exception from the "AREA 1" lookup is caught by the
top-level handler, producing one error log line and skipping everything
after line 221. -/
def runEvents (t : List Row) : List Event :=
  let joinedCheck : Event :=
    if t.length < 100000 then .logWarning .joinedRecords else .logDebug .joinedRecords
  let res := summarize_units t
  [joinedCheck, .logDebug .summarizing] ++ csvEvents ++
    match lookupArea1 res.1 with
    | none => [.logError]
    | some area1Units =>
      [if res.2.length < 130000 then .logWarning .summaryRows else .logDebug .summaryRows,
       if area1Units < 30000 then .logWarning .area1Units else .logDebug .area1Units] ++
      (if res.2.length > 0 then [excelEvent, .logDebug .exported] else [])

/-! ## Control flow of `__main__` under exceptions (main.py lines 174-254)

The staging calls (lines 184-204) run *before* the `try:` of line 206;
everything from `waste_analysis` to the Excel export runs inside it, and
the two `except` clauses (lines 246-254) each write exactly one
error-level log line and fall off the end of the script.  A run is
modelled stage by stage, with an optional injected exception. -/

/-- The successive steps of one run of `__main__`, in program order. -/
inductive Stage where
  | createGdb
  | copyPolygons
  | copyBuildingUse
  | copyWasteAreas
  | analysis
  | summarize
  | area1Lookup
  | sanityChecks
  | excelExport
  deriving DecidableEq, Repr

/-- The steps in program order (main.py lines 184-244). -/
def stageOrder : List Stage :=
  [.createGdb, .copyPolygons, .copyBuildingUse, .copyWasteAreas,
   .analysis, .summarize, .area1Lookup, .sanityChecks, .excelExport]

/-- The steps executed before the `try:` of line 206 — an exception there
is not covered by any handler. -/
def preTryStages : List Stage :=
  [.createGdb, .copyPolygons, .copyBuildingUse, .copyWasteAreas]

/-- The steps executed inside the `try:` block (lines 206-244). -/
def tryStages : List Stage :=
  [.analysis, .summarize, .area1Lookup, .sanityChecks, .excelExport]

/-- Outcome of one run of `__main__`: which steps were started, how many
error-level log lines were written, whether the Excel report was written,
and whether the run ended with an uncaught exception (a Python traceback)
instead of terminating normally. -/
structure RunResult where
  stagesRun : List Stage
  errorLogs : Nat
  excelWritten : Bool
  uncaught : Bool
  deriving DecidableEq, Repr

/-- One run of `__main__` with an exception injected at step `failAt`
(`none` for a clean run).  `area1Present` says whether `df_final` has a
row labelled "AREA 1" (line 221 raises `KeyError` otherwise) and
`summaryNonempty` whether `len(df_summarized.index) > 0` (the Excel guard
of line 237).  An exception at a pre-`try` step propagates uncaught; an
exception inside the `try:` reaches an `except` clause, which logs one
error line, and the script then ends normally.  No step is ever
re-attempted. -/
def programRun (failAt : Option Stage) (area1Present : Bool)
    (summaryNonempty : Bool) : RunResult :=
  let rec go (pending : List Stage) (ran : List Stage) : RunResult :=
    match pending with
    | [] => ⟨ran.reverse, 0, false, false⟩
    | s :: rest =>
      if failAt = some s then
        if s ∈ preTryStages then ⟨(s :: ran).reverse, 0, false, true⟩
        else ⟨(s :: ran).reverse, 1, false, false⟩
      else if s = .area1Lookup ∧ ¬ area1Present then
        ⟨(s :: ran).reverse, 1, false, false⟩
      else if s = .excelExport then
        ⟨(s :: ran).reverse, 0, summaryNonempty, false⟩
      else
        go rest (s :: ran)
  go stageOrder []

/-! ## Datasets read and written (main.py lines 94-96, 119-161, 177-204)

For the frame claim every external call is modelled by the datasets it
reads and the datasets it writes.  A dataset is either one of the three
remote source-of-record datasets under the SDE connection, or a local
dataset of this run (a feature class or table inside
`temp_workspace.gdb`, or a file next to the script). -/

/-- A dataset touched by the run: a remote source-of-record dataset
(under the SDE connection of `settings.ini`) or a local copy/derivative
(inside `temp_workspace.gdb` or the script directory). -/
inductive DataPath where
  | remote (name : String)
  | localData (name : String)
  deriving DecidableEq, Repr

/-- Whether a dataset is one of the remote source-of-record datasets. -/
def DataPath.isRemote : DataPath → Bool
  | .remote _ => true
  | .localData _ => false

/-- The three source-of-record datasets (main.py lines 177-179). -/
def remoteSources : List DataPath :=
  [.remote "SDEADM.BLD_building_polygon",
   .remote "SDEADM.BLD_BUILDING_USE",
   .remote "SDEADM.ADM_solid_waste/SDEADM.ADM_waste_coll_area"]

/-- An external call, by the datasets it reads and writes. -/
structure GPOp where
  opName : String
  reads : List DataPath
  writes : List DataPath
  deriving DecidableEq, Repr

/-- The staging step (main.py lines 184-204): create the fresh local
geodatabase and copy each remote dataset into it. -/
def stagingOps : List GPOp :=
  [⟨"CreateFileGDB", [], [.localData "temp_workspace.gdb"]⟩,
   ⟨"FeatureClassToFeatureClass BLD_building_polygon",
    [.remote "SDEADM.BLD_building_polygon"], [.localData "BLD_building_polygon"]⟩,
   ⟨"TableToTable BLD_BUILDING_USE",
    [.remote "SDEADM.BLD_BUILDING_USE"], [.localData "BLD_BUILDING_USE"]⟩,
   ⟨"FeatureClassToFeatureClass ADM_waste_coll_area",
    [.remote "SDEADM.ADM_solid_waste/SDEADM.ADM_waste_coll_area"],
    [.localData "ADM_waste_coll_area"]⟩]

/-- Every operation after staging (main.py lines 119-161, 163, 68-72,
94-96, 240-242): dissolve, spatial join, attribute join (in place on the
local join output), filtered export, row count, DataFrame conversion, the
three CSV writes and the Excel write.  All of them read and write local
datasets only. -/
def pipelineOps : List GPOp :=
  [⟨"Dissolve", [.localData "BLD_building_polygon"],
    [.localData "dissolved_building_polygons"]⟩,
   ⟨"SpatialJoin",
    [.localData "dissolved_building_polygons", .localData "ADM_waste_coll_area"],
    [.localData "buildings_w_waste_areas"]⟩,
   ⟨"JoinField",
    [.localData "buildings_w_waste_areas", .localData "BLD_BUILDING_USE"],
    [.localData "buildings_w_waste_areas"]⟩,
   ⟨"FeatureClassToFeatureClass Join_Count > 0",
    [.localData "buildings_w_waste_areas"],
    [.localData "buildings_w_waste_areas_blduse"]⟩,
   ⟨"GetCount", [.localData "buildings_w_waste_areas_blduse"], []⟩,
   ⟨"FeatureClassToNumPyArray", [.localData "buildings_w_waste_areas_blduse"], []⟩,
   ⟨"to_csv x3", [],
    [.localData "df_final.csv", .localData "df_summary.csv", .localData "df_original.csv"]⟩,
   ⟨"ExcelWriter", [], [.localData "Building_Dwellings_Summarized.xlsx"]⟩]

/-! ## Specification-side definitions

The following `spec...` definitions are written from the words of the
specification (not from the code) and exist only to be compared with the
code-derived definitions above: the report is said to give, per collection
area, the building count and unit total over exactly the buildings whose
per-building unit total is at most 6. -/

/-- Per-building dwelling-unit total of building `b` over the whole input
table (NULL units read as 0), as the specification words it. -/
def specUnitsOf (t : List Row) (b : String) : Int :=
  ((t.filter fun r => r.bl_id = b).map fun r => r.dwel_units.getD 0).sum

/-- The distinct building identifiers of the input table. -/
def specBuildings (t : List Row) : List String :=
  (t.map Row.bl_id).dedup

/-- The buildings the specification says the report is restricted to:
those whose per-building unit total is at most 6. -/
def specKept (t : List Row) : List String :=
  (specBuildings t).filter fun b => specUnitsOf t b ≤ 6

/-- The collection area of building `b`: the area of its (first) row. -/
def specAreaOf (t : List Row) (b : String) : String :=
  ((t.find? fun r => r.bl_id = b).map Row.coll_area).getD ""

/-- The per-collection-area rows the specification describes: for each
area of a kept building, the unit total and the count over exactly the
kept buildings of that area. -/
def specAreaRows (t : List Row) : List FRow :=
  (((specKept t).map (specAreaOf t)).dedup).map fun a =>
    let bs := (specKept t).filter fun b => specAreaOf t b = a
    ⟨a, (bs.map (specUnitsOf t)).sum, bs.length⟩

/-- The canonical per-area aggregation of a flat table with one row per
building: group the rows by area, sum the (NULL-as-0) units and count the
rows.  Both the code path and the specification path reduce to this form
on tables with distinct building ids. -/
def areaRowsOf (l : List Row) : List FRow :=
  ((l.map Row.coll_area).dedup).map fun a =>
    let grp := l.filter fun r => r.coll_area = a
    ⟨a, (grp.map fun r => r.dwel_units.getD 0).sum, grp.length⟩

/-- The declared row filter of main.py line 29,
`DWEL_UNITS_SQL = "SUM_DWEL_UNITS <= 6 And SUM_DWEL_UNITS <> 0"` — defined
but never passed to any call, so it is embedded only to be compared with
the filter `summarize_units` actually applies. -/
def DWEL_UNITS_SQL (s : Int) : Bool :=
  s ≤ 6 && s ≠ 0

/-- A concrete geometry for the spatial-join claims: every building
polygon intersects every area polygon. -/
def interEx : String → String → Bool := fun _ _ => true

/-- A concrete containment relation for the same geometry: the building
lies inside (is contained in) area "A2" only.  Containment implies
intersection, so `insideEx` is consistent with `interEx`. -/
def insideEx : String → String → Bool := fun _ a => a == "A2"

/-! ## Helper lemmas -/

/-- In a list whose keys are pairwise distinct, filtering on the key of a
member yields exactly that member. -/
theorem filter_key_singleton [DecidableEq β] (k : α → β) (l : List α)
    (hnd : (l.map k).Nodup) (r : α) (hr : r ∈ l) :
    (l.filter fun x => k x = k r) = [r] := by
  induction l with
  | nil => cases hr
  | cons x xs ih =>
    rw [List.map_cons, List.nodup_cons] at hnd
    rcases List.mem_cons.mp hr with h | h
    · subst h
      have hnil : (xs.filter fun y => k y = k r) = [] := by
        rw [List.filter_eq_nil_iff]
        intro a ha hka
        exact hnd.1 ((by simpa using hka : k a = k r) ▸ List.mem_map_of_mem k ha)
      simp [List.filter_cons, hnil]
    · have hne : ¬ (k x = k r) := fun he => hnd.1 (he ▸ List.mem_map_of_mem k h)
      have hxs := ih hnd.2 h
      simp [List.filter_cons, hne, hxs]

/-- In a list whose keys are pairwise distinct, searching on the key of a
member finds exactly that member. -/
theorem find_key_eq [DecidableEq β] (k : α → β) (l : List α)
    (hnd : (l.map k).Nodup) (r : α) (hr : r ∈ l) :
    (l.find? fun x => k x = k r) = some r := by
  have h1 := List.filter_head? (fun x => decide (k x = k r)) l
  rw [filter_key_singleton k l hnd r hr] at h1
  exact h1.symm

/-- `filter` after `map` is `map` after the transported `filter`. -/
theorem filter_over_map (p : β → Bool) (f : α → β) (l : List α) :
    (l.map f).filter p = (l.filter fun x => p (f x)).map f := by
  have h := List.filter_map (p := p) f l
  simpa [Function.comp] using h

/-- A `filter` result is nonempty exactly when some member passes. -/
theorem filter_nonempty_iff (p : α → Bool) (l : List α) :
    l.filter p ≠ [] ↔ ∃ a ∈ l, p a := by
  simp [List.eq_nil_iff_forall_not_mem]

/-- `toDataFrame` keeps the `COLL_AREA` column unchanged. -/
theorem toDataFrame_coll (t : List Row) :
    (toDataFrame t).map DRow.coll_area = t.map Row.coll_area := by
  simp [toDataFrame, List.map_map, Function.comp]

/-- Every area label of `summaryOne df` is an area of a row of `df`. -/
theorem summaryOne_coll_sub (df : List DRow) (a : String)
    (h : a ∈ (summaryOne df).map SRow.coll_area) : a ∈ df.map DRow.coll_area := by
  unfold summaryOne at h
  rw [List.map_map] at h
  rcases List.mem_map.mp h with ⟨k, hk, hka⟩
  rcases List.mem_map.mp (List.mem_dedup.mp hk) with ⟨r, hr, hrk⟩
  have : a = r.coll_area := by
    rw [← hka, ← hrk]
    rfl
  exact this ▸ List.mem_map_of_mem DRow.coll_area hr

/-- Every label of `groupFinal s` is an area of a row of `s`. -/
theorem groupFinal_label_sub (s : List SRow) (fr : FRow) (h : fr ∈ groupFinal s) :
    fr.coll_area ∈ s.map SRow.coll_area := by
  unfold groupFinal at h
  rcases List.mem_map.mp h with ⟨a, ha, hfr⟩
  have hmem := List.mem_dedup.mp ha
  rw [← hfr]
  exact hmem

/-- Every label of the pre-`loc` aggregated table is an area of the input
table. -/
theorem final_label_mem (t : List Row) (fr : FRow)
    (h : fr ∈ groupFinal (summaryOne (queryLe6 (toDataFrame t)))) :
    fr.coll_area ∈ t.map Row.coll_area := by
  have h1 := summaryOne_coll_sub _ _ (groupFinal_label_sub _ _ h)
  rcases List.mem_map.mp h1 with ⟨r, hr, hra⟩
  have hrt : r ∈ toDataFrame t := (List.mem_filter.mp hr).1
  rw [← toDataFrame_coll t]
  exact hra ▸ List.mem_map_of_mem DRow.coll_area hrt

/-- When no label is "TOTAL", the `loc` assignment appends the total row. -/
theorem locSetTotal_append (rows : List FRow) (h : ∀ r ∈ rows, r.coll_area ≠ "TOTAL") :
    locSetTotal rows =
      rows ++ [⟨"TOTAL", (rows.map FRow.dwel_units).sum, (rows.map FRow.bl_count).sum⟩] := by
  unfold locSetTotal
  rw [if_neg]
  simp only [List.any_eq_true, decide_eq_true_eq, not_exists]
  intro r hmem
  exact h r hmem.1 hmem.2

/-! ## Claims -/

/-- C5: the staging step copies each of the three remote source-of-record
datasets into the fresh local workspace, and every operation of the run —
staging included — writes only local datasets; every operation after
staging also reads only local datasets, so no step of the pipeline ever
touches (let alone mutates) the remote originals. -/
theorem sources_unchanged :
    (∀ op ∈ stagingOps ++ pipelineOps, ∀ p ∈ op.writes, p.isRemote = false) ∧
    (∀ op ∈ pipelineOps, ∀ p ∈ op.reads, p.isRemote = false) ∧
    (∀ src ∈ remoteSources, ∃ op ∈ stagingOps,
      src ∈ op.reads ∧ ∀ q ∈ op.writes, q.isRemote = false) := by
  decide

/-- C8 (amended): an exception raised at any step inside the `try:` block
— the geometry pipeline, the aggregation, the "AREA 1" lookup, the sanity
checks or the Excel export, including geoprocessing-engine errors — is
caught by the top-level handler, which writes exactly one error-level log
line; the run then terminates normally, without retrying any step and
without writing the spreadsheet report.  (Exceptions during the staging
copies, which run before the `try:`, propagate uncaught; see the
counterexample.) -/
theorem try_block_failure_handling (failAt : Stage) (h : failAt ∈ tryStages)
    (area1Present summaryNonempty : Bool) :
    (programRun (some failAt) area1Present summaryNonempty).errorLogs = 1 ∧
    (programRun (some failAt) area1Present summaryNonempty).uncaught = false ∧
    (programRun (some failAt) area1Present summaryNonempty).excelWritten = false ∧
    (programRun (some failAt) area1Present summaryNonempty).stagesRun.Nodup := by
  fin_cases h <;> cases area1Present <;> cases summaryNonempty <;> decide

/-- Witness for C8: a failure in the geometry-pipeline step is caught,
logged once, and stops the run without an Excel export. -/
theorem try_block_failure_handling_witness :
    (programRun (some Stage.analysis) true true).errorLogs = 1 ∧
    (programRun (some Stage.analysis) true true).uncaught = false ∧
    (programRun (some Stage.analysis) true true).excelWritten = false ∧
    (programRun (some Stage.analysis) true true).stagesRun.Nodup :=
  try_block_failure_handling Stage.analysis (by decide) true true

/-- Counterexample for C8 as stated: an exception raised while staging the
building-polygon copy (main.py line 190, before the `try:` of line 206) is
not caught and no error-level line is logged — the run dies with an
uncaught traceback instead of terminating normally. -/
theorem staging_failure_uncaught :
    (programRun (some Stage.copyPolygons) true true).uncaught = true ∧
    (programRun (some Stage.copyPolygons) true true).errorLogs = 0 := by
  decide

/-- Counterexample for C1 as stated: on a table where building "B1" has
two rows of 4 units in area "A1", the per-building total is 8 > 6, so the
claimed report has no eligible building at all (`specAreaRows` is empty),
yet `summarize_units` filters per row (each 4 ≤ 6) and reports area "A1"
with 8 units and 1 building. -/
theorem per_building_filter_counterexample :
    specUnitsOf [⟨"B1", "A1", some 4⟩, ⟨"B1", "A1", some 4⟩] "B1" = 8 ∧
    ¬ ((8 : Int) ≤ 6) ∧
    specAreaRows [⟨"B1", "A1", some 4⟩, ⟨"B1", "A1", some 4⟩] = [] ∧
    (summarize_units [⟨"B1", "A1", some 4⟩, ⟨"B1", "A1", some 4⟩]).1.dropLast =
      [⟨"A1", 8, 1⟩] := by
  decide

/-- Counterexample for C2 as stated: when a collection area is itself
labelled "TOTAL", the pandas `loc` assignment overwrites that existing
area row in place instead of appending a grand-total row.  The input
areas "A1", "TOTAL" already occur in sorted order, so the modelled table
coincides with the program's (pandas sorts group keys and "TOTAL" sorts
last here): `df_final` is [A1:(2,1), TOTAL:(1,1)], and the assignment
overwrites the TOTAL-area row with the pre-assignment column sums (3,2),
absorbing that row's own (1,1).  The returned table's last row is
labelled "TOTAL" but carries (3,2), not the sums (2,1) of the columns
over the per-collection-area rows of the returned table — so no entry of
the last row equals the corresponding column sum the claim asserts. -/
theorem total_label_counterexample :
    (summarize_units [⟨"B2", "A1", some 2⟩, ⟨"B1", "TOTAL", some 1⟩]).1 =
      [⟨"A1", 2, 1⟩, ⟨"TOTAL", 3, 2⟩] ∧
    (summarize_units [⟨"B2", "A1", some 2⟩, ⟨"B1", "TOTAL", some 1⟩]).1.getLast? =
      some ⟨"TOTAL", 3, 2⟩ ∧
    (((summarize_units [⟨"B2", "A1", some 2⟩, ⟨"B1", "TOTAL", some 1⟩]).1.dropLast.map
      FRow.dwel_units).sum = 2 ∧
     ((summarize_units [⟨"B2", "A1", some 2⟩, ⟨"B1", "TOTAL", some 1⟩]).1.dropLast.map
      FRow.bl_count).sum = 1) ∧
    ((3 : Int) ≠ 2 ∧ (2 : Nat) ≠ 1) := by
  decide

/-- Counterexample for C6 as stated: a building that intersects no
collection area is kept by the KEEP_ALL spatial join with
`Join_Count = 0` but dropped by the `Join_Count > 0` export filter, so it
appears zero times — not exactly once — in the table `waste_analysis`
returns. -/
theorem unmatched_building_dropped :
    Dissolve ["B1"] = ["B1"] ∧
    waste_analysis ["B1"] [("B1", some 2)] [] (fun _ _ => false) = [] := by
  decide

/-- Counterexample for C7 as stated: building "B" lies inside area "A2"
only (`insideEx`), but its polygon also intersects area "A1" (`interEx`),
and the INTERSECT spatial join assigns the first intersecting area, "A1" —
an area the building does not fall inside. -/
theorem intersect_not_inside_counterexample :
    insideEx "B" "A2" = true ∧ insideEx "B" "A1" = false ∧
    interEx "B" "A1" = true ∧ interEx "B" "A2" = true ∧
    waste_analysis ["B"] [] ["A1", "A2"] interEx = [⟨"B", "A1", none⟩] := by
  decide

/-- The building ids of the table returned by `waste_analysis` are the
dissolved (distinct) input ids restricted to buildings whose polygon
intersects at least one collection area. -/
theorem waste_bl_chain (use : List (String × Option Int)) (areas : List String)
    (inter : String → String → Bool) (l : List String) :
    (((JoinField (SpatialJoin l areas inter) use).filter fun p => p.1.join_count > 0).map
      fun p => (⟨p.1.bl_id, (p.1.coll_area).getD "", p.2⟩ : Row)).map Row.bl_id =
      l.filter fun b => (areas.filter fun a => inter b a).length > 0 := by
  induction l with
  | nil => rfl
  | cons x xs ih =>
    simp only [SpatialJoin, JoinField, List.map_cons, List.filter_cons] at ih ⊢
    by_cases hx : (areas.filter fun a => inter x a).length > 0
    · simp [hx]
      simpa using ih
    · simp [hx]
      simpa using ih

/-- `waste_analysis` in terms of the dissolved ids and the intersection
test. -/
theorem waste_bl_ids (polys : List String) (use : List (String × Option Int))
    (areas : List String) (inter : String → String → Bool) :
    (waste_analysis polys use areas inter).map Row.bl_id =
      (Dissolve polys).filter fun b => (areas.filter fun a => inter b a).length > 0 := by
  unfold waste_analysis
  exact waste_bl_chain use areas inter (Dissolve polys)

/-- Shape of a row returned by `waste_analysis`: its area is the head of
the list of areas its building intersects, that list is nonempty, and the
building id comes from the input. -/
theorem waste_row_shape (polys : List String) (use : List (String × Option Int))
    (areas : List String) (inter : String → String → Bool) (r : Row)
    (hr : r ∈ waste_analysis polys use areas inter) :
    (areas.filter fun a => inter r.bl_id a).head? = some r.coll_area ∧
    0 < (areas.filter fun a => inter r.bl_id a).length ∧ r.bl_id ∈ polys := by
  simp only [waste_analysis, JoinField, SpatialJoin, Dissolve] at hr
  rcases List.mem_map.mp hr with ⟨p, hp, hfp⟩
  rcases List.mem_filter.mp hp with ⟨hpm, hpc⟩
  rcases List.mem_map.mp hpm with ⟨sj, hsjm, hgp⟩
  rcases List.mem_map.mp hsjm with ⟨b, hb, hmk⟩
  subst hmk
  subst hgp
  subst hfp
  simp only at hpc ⊢
  have hlen : 0 < (areas.filter fun a => inter b a).length := by simpa using hpc
  refine ⟨?_, hlen, List.mem_dedup.mp hb⟩
  cases hcase : areas.filter fun a => inter b a with
  | nil => rw [hcase] at hlen; cases hlen
  | cons y ys => simp [hcase]

/-- C2 (amended): for every input table in which no collection area is
itself labelled "TOTAL", the table returned by `summarize_units` is its
per-collection-area rows followed by one grand-total row labelled "TOTAL"
whose unit-sum and building-count entries are the sums of those columns
over all per-area rows.  (When an area is labelled "TOTAL" the pandas
`loc` assignment overwrites that row instead; see the counterexample.) -/
theorem summarize_units_total_row (t : List Row)
    (hTot : "TOTAL" ∉ t.map Row.coll_area) :
    (summarize_units t).1 =
      (summarize_units t).1.dropLast ++
        [⟨"TOTAL", (((summarize_units t).1.dropLast).map FRow.dwel_units).sum,
          (((summarize_units t).1.dropLast).map FRow.bl_count).sum⟩] := by
  have hlab : ∀ fr ∈ groupFinal (summaryOne (queryLe6 (toDataFrame t))),
      fr.coll_area ≠ "TOTAL" :=
    fun fr hfr he => hTot (he ▸ final_label_mem t fr hfr)
  have h1 : (summarize_units t).1 =
      locSetTotal (groupFinal (summaryOne (queryLe6 (toDataFrame t)))) := rfl
  rw [h1, locSetTotal_append _ hlab, List.dropLast_concat]

/-- Witness for C2: a one-row table, no area labelled "TOTAL". -/
theorem summarize_units_total_row_witness :
    ("TOTAL" ∉ ([⟨"B1", "A1", some 3⟩] : List Row).map Row.coll_area) ∧
    (summarize_units [⟨"B1", "A1", some 3⟩]).1 =
      (summarize_units [⟨"B1", "A1", some 3⟩]).1.dropLast ++
        [⟨"TOTAL", (((summarize_units [⟨"B1", "A1", some 3⟩]).1.dropLast).map FRow.dwel_units).sum,
          (((summarize_units [⟨"B1", "A1", some 3⟩]).1.dropLast).map FRow.bl_count).sum⟩] :=
  ⟨by decide, summarize_units_total_row _ (by decide)⟩

/-- C6 (amended): the dissolve yields exactly one row per distinct
building identifier of the input, and in the table returned by
`waste_analysis` every building identifier appears at most once —
exactly once iff the building intersects at least one collection area
(buildings matching no area are kept by the KEEP_ALL join with
`Join_Count = 0` and then dropped by the `Join_Count > 0` export
filter). -/
theorem waste_analysis_one_row_per_building (polys : List String)
    (use : List (String × Option Int)) (areas : List String)
    (inter : String → String → Bool) :
    (Dissolve polys).Nodup ∧ (∀ b, b ∈ Dissolve polys ↔ b ∈ polys) ∧
    ((waste_analysis polys use areas inter).map Row.bl_id).Nodup ∧
    (∀ b, b ∈ (waste_analysis polys use areas inter).map Row.bl_id ↔
      (b ∈ polys ∧ ∃ a ∈ areas, inter b a = true)) := by
  refine ⟨List.nodup_dedup polys, fun b => List.mem_dedup, ?_, ?_⟩
  · rw [waste_bl_ids]
    exact (List.nodup_dedup polys).filter _
  · intro b
    rw [waste_bl_ids, List.mem_filter]
    constructor
    · rintro ⟨hmem, hq⟩
      refine ⟨List.mem_dedup.mp hmem, ?_⟩
      have hne : (areas.filter fun a => inter b a) ≠ [] := by
        intro hnil
        rw [hnil] at hq
        simp at hq
      exact (filter_nonempty_iff _ _).mp hne
    · rintro ⟨hb, a, ha, hia⟩
      refine ⟨List.mem_dedup.mpr hb, ?_⟩
      have hne : (areas.filter fun a => inter b a) ≠ [] :=
        (filter_nonempty_iff _ _).mpr ⟨a, ha, hia⟩
      simpa using List.length_pos.mpr hne

/-- C7 (amended): every row returned by `waste_analysis` is assigned a
collection area that its building polygon actually *intersects* — the
first intersecting area in the join-feature order (INTERSECT matching,
not containment); in particular a building whose polygon intersects
exactly one area (for instance one that lies inside an area and touches
no other) is assigned that area. -/
theorem spatial_join_assigns_intersecting_area (polys : List String)
    (use : List (String × Option Int)) (areas : List String)
    (inter : String → String → Bool) (r : Row)
    (hr : r ∈ waste_analysis polys use areas inter) :
    (r.coll_area ∈ areas ∧ inter r.bl_id r.coll_area = true ∧
      (areas.filter fun a => inter r.bl_id a).head? = some r.coll_area) ∧
    (∀ a0 ∈ areas, inter r.bl_id a0 = true →
      (∀ a ∈ areas, inter r.bl_id a = true → a = a0) → r.coll_area = a0) := by
  obtain ⟨hhead, hlen, _⟩ := waste_row_shape polys use areas inter r hr
  have hmem : r.coll_area ∈ areas.filter fun a => inter r.bl_id a :=
    List.mem_of_mem_head? (by rw [hhead]; rfl)
  obtain ⟨hin_areas, hinter⟩ := List.mem_filter.mp hmem
  refine ⟨⟨hin_areas, by simpa using hinter, hhead⟩, ?_⟩
  intro a0 _ _ huniq
  exact huniq r.coll_area hin_areas (by simpa using hinter)

/-- Witness for C7: one building, one area, intersecting geometry. -/
theorem spatial_join_assigns_intersecting_area_witness :
    (⟨"B", "A1", none⟩ : Row).coll_area ∈ ["A1"] ∧
    interEx "B" (⟨"B", "A1", none⟩ : Row).coll_area = true ∧
    (["A1"].filter fun a => interEx "B" a).head? =
      some (⟨"B", "A1", none⟩ : Row).coll_area :=
  (spatial_join_assigns_intersecting_area ["B"] [] ["A1"] interEx
    ⟨"B", "A1", none⟩ (by decide)).1

/-- The Excel event never equals a sanity-check log line. -/
theorem excelWrite_ne_ite (s : List (String × TableId)) (c : Prop) [Decidable c]
    (x y : CheckTag) :
    ¬ (Event.excelWrite s = if c then Event.logWarning x else Event.logDebug y) := by
  by_cases h : c <;> simp [h]

/-- The error log event never equals a sanity-check log line. -/
theorem logError_ne_ite (c : Prop) [Decidable c] (x y : CheckTag) :
    Event.logError ≠ (if c then Event.logWarning x else Event.logDebug y) := by
  by_cases h : c <;> simp [h]

/-- C3: on every run that reaches the export stage (the "AREA 1" lookup
of line 221 succeeded), the three CSV flat files (final,
intermediate-summary and original tables) are written unconditionally by
`summarize_units`, and the single spreadsheet with its two sheets
("final" holding the aggregated table, "summary" the pre-aggregation
detail table) is written iff the intermediate per-building summary table
is non-empty. -/
theorem export_stage_outputs (t : List Row) :
    (∀ e ∈ csvEvents, e ∈ runEvents t) ∧
    ((lookupArea1 (summarize_units t).1).isSome →
      (excelEvent ∈ runEvents t ↔ (summarize_units t).2 ≠ [])) := by
  constructor
  · intro e he
    simp only [runEvents]
    cases hl : lookupArea1 (summarize_units t).1 <;>
      simp [List.mem_append, he]
  · intro hsome
    rcases Option.isSome_iff_exists.mp hsome with ⟨a1, ha1⟩
    simp only [runEvents, ha1]
    by_cases hpos : (summarize_units t).2.length > 0
    · have hne : (summarize_units t).2 ≠ [] := by
        intro h0
        rw [h0] at hpos
        simp at hpos
      simp [hpos, hne, List.mem_append, excelWrite_ne_ite, csvEvents, excelEvent]
    · have heq : (summarize_units t).2 = [] := by
        cases hcase : (summarize_units t).2 with
        | nil => rfl
        | cons x xs => rw [hcase] at hpos; simp at hpos
      simp [hpos, heq, List.mem_append, excelWrite_ne_ite, csvEvents, excelEvent]

/-- Witness for C3: a run whose final table has an "AREA 1" row. -/
theorem export_stage_outputs_witness :
    (∀ e ∈ csvEvents, e ∈ runEvents [⟨"B1", "AREA 1", some 3⟩]) ∧
    ((lookupArea1 (summarize_units [⟨"B1", "AREA 1", some 3⟩]).1).isSome →
      (excelEvent ∈ runEvents [⟨"B1", "AREA 1", some 3⟩] ↔
        (summarize_units [⟨"B1", "AREA 1", some 3⟩]).2 ≠ [])) :=
  export_stage_outputs [⟨"B1", "AREA 1", some 3⟩]

/-- C10: when the aggregated table has no row labelled exactly "AREA 1",
the lookup of line 221 raises, the top-level handler logs one error line,
and the Excel export never runs — while the three CSV files were already
written by `summarize_units` before the lookup. -/
theorem area1_absent_no_excel (t : List Row)
    (h : "AREA 1" ∉ (summarize_units t).1.map FRow.coll_area) :
    Event.logError ∈ runEvents t ∧ excelEvent ∉ runEvents t ∧
    (∀ e ∈ csvEvents, e ∈ runEvents t) := by
  have hf : ((summarize_units t).1.find? fun r => r.coll_area = "AREA 1") = none := by
    rw [List.find?_eq_none]
    intro fr hfr
    simp only [decide_eq_true_eq]
    intro hc
    exact h (hc ▸ List.mem_map_of_mem FRow.coll_area hfr)
  have hl : lookupArea1 (summarize_units t).1 = none := by
    unfold lookupArea1
    rw [hf]
    rfl
  refine ⟨?_, ?_, ?_⟩
  · simp [runEvents, hl, List.mem_append]
  · simp [runEvents, hl, List.mem_append, excelWrite_ne_ite, csvEvents, excelEvent]
  · intro e he
    simp [runEvents, hl, List.mem_append, he]

/-- Witness for C10: a run whose only area is "A2". -/
theorem area1_absent_no_excel_witness :
    ("AREA 1" ∉ (summarize_units [⟨"B1", "A2", some 3⟩]).1.map FRow.coll_area) ∧
    (Event.logError ∈ runEvents [⟨"B1", "A2", some 3⟩] ∧
      excelEvent ∉ runEvents [⟨"B1", "A2", some 3⟩] ∧
      (∀ e ∈ csvEvents, e ∈ runEvents [⟨"B1", "A2", some 3⟩])) :=
  ⟨by decide, area1_absent_no_excel [⟨"B1", "A2", some 3⟩] (by decide)⟩

/-- C4: on every run that reaches the sanity checks, each of the three
checks logs exactly one warning-level line when its count is below its
historical threshold (joined records below 100000, summary rows below
130000, Area 1 units below 30000) and exactly one debug-level line — and
no warning — when the count is at or above the threshold. -/
theorem sanity_threshold_warnings (t : List Row) (a1 : Int)
    (h : lookupArea1 (summarize_units t).1 = some a1) :
    ((runEvents t).count (Event.logWarning .joinedRecords) =
      if t.length < 100000 then 1 else 0) ∧
    ((runEvents t).count (Event.logDebug .joinedRecords) =
      if t.length < 100000 then 0 else 1) ∧
    ((runEvents t).count (Event.logWarning .summaryRows) =
      if (summarize_units t).2.length < 130000 then 1 else 0) ∧
    ((runEvents t).count (Event.logDebug .summaryRows) =
      if (summarize_units t).2.length < 130000 then 0 else 1) ∧
    ((runEvents t).count (Event.logWarning .area1Units) =
      if a1 < 30000 then 1 else 0) ∧
    ((runEvents t).count (Event.logDebug .area1Units) =
      if a1 < 30000 then 0 else 1) := by
  by_cases h1 : t.length < 100000 <;>
    by_cases h2 : (summarize_units t).2.length < 130000 <;>
      by_cases h3 : a1 < 30000 <;>
        by_cases h4 : (summarize_units t).2.length > 0 <;>
          simp [runEvents, h, h1, h2, h3, h4, csvEvents, excelEvent,
            List.count_append, List.count_cons]

/-- Witness for C4: a one-row run with an "AREA 1" row of 3 units — all
three counts are below their thresholds, so all three checks warn. -/
theorem sanity_threshold_warnings_witness :
    ((runEvents [⟨"B1", "AREA 1", some 3⟩]).count (Event.logWarning .joinedRecords) =
      if ([⟨"B1", "AREA 1", some 3⟩] : List Row).length < 100000 then 1 else 0) ∧
    ((runEvents [⟨"B1", "AREA 1", some 3⟩]).count (Event.logDebug .joinedRecords) =
      if ([⟨"B1", "AREA 1", some 3⟩] : List Row).length < 100000 then 0 else 1) ∧
    ((runEvents [⟨"B1", "AREA 1", some 3⟩]).count (Event.logWarning .summaryRows) =
      if (summarize_units [⟨"B1", "AREA 1", some 3⟩]).2.length < 130000 then 1 else 0) ∧
    ((runEvents [⟨"B1", "AREA 1", some 3⟩]).count (Event.logDebug .summaryRows) =
      if (summarize_units [⟨"B1", "AREA 1", some 3⟩]).2.length < 130000 then 0 else 1) ∧
    ((runEvents [⟨"B1", "AREA 1", some 3⟩]).count (Event.logWarning .area1Units) =
      if (3 : Int) < 30000 then 1 else 0) ∧
    ((runEvents [⟨"B1", "AREA 1", some 3⟩]).count (Event.logDebug .area1Units) =
      if (3 : Int) < 30000 then 0 else 1) :=
  sanity_threshold_warnings [⟨"B1", "AREA 1", some 3⟩] 3 (by decide)

/-- The `loc` assignment never removes an area label: any label present
before `df_final.loc["TOTAL"] = df_final.sum()` is still present after. -/
theorem locSetTotal_label_preserved (rows : List FRow) (a : String)
    (h : ∃ fr ∈ rows, fr.coll_area = a) :
    ∃ fr ∈ locSetTotal rows, fr.coll_area = a := by
  rcases h with ⟨fr, hfr, ha⟩
  unfold locSetTotal
  by_cases hany : rows.any fun r => r.coll_area = "TOTAL"
  · rw [if_pos hany]
    refine ⟨_, List.mem_map.mpr ⟨fr, hfr, rfl⟩, ?_⟩
    by_cases hTa : fr.coll_area = "TOTAL"
    · rw [if_pos hTa]
      exact hTa ▸ ha
    · rw [if_neg hTa]
      exact ha
  · rw [if_neg hany]
    exact ⟨fr, List.mem_append_left _ hfr, ha⟩

/-- Rows whose building has only NULL unit values survive the row filter
(NULL is read as 0 and 0 ≤ 6), and the group of such a key is exactly the
image of the matching input rows. -/
theorem key_filter_of_null (t : List Row) (a b : String)
    (hnull : ∀ r ∈ t, r.bl_id = b → r.dwel_units = none) :
    ((queryLe6 (toDataFrame t)).filter fun r => dkey r = (a, b)) =
      toDataFrame (t.filter fun r => r.coll_area = a ∧ r.bl_id = b) := by
  unfold queryLe6 toDataFrame
  rw [List.filter_filter, filter_over_map]
  congr 1
  apply List.filter_congr
  intro r hr
  by_cases hk : r.coll_area = a ∧ r.bl_id = b
  · have hn := hnull r hr hk.2
    simp [dkey, hk.1, hk.2, hn]
  · rcases not_and_or.mp hk with h1 | h1 <;> simp [dkey, h1, hk]

/-- C9: a row whose dwelling-unit value is missing is treated as 0 by
`summarize_units`: a building all of whose rows are NULL passes the ≤ 6
row filter, appears in the per-building summary with unit sum 0 and a
building count equal to its number of rows, and its area keeps a row in
the final report — even though the declared (never-applied) filter
`DWEL_UNITS_SQL` of line 29 would have excluded a zero-unit total. -/
theorem null_units_counted (t : List Row) (a b : String)
    (hnull : ∀ r ∈ t, r.bl_id = b → r.dwel_units = none)
    (hmem : ∃ r ∈ t, r.bl_id = b ∧ r.coll_area = a) :
    summarize_units (t.map fun r => ⟨r.bl_id, r.coll_area, some (r.dwel_units.getD 0)⟩) =
        summarize_units t ∧
    (⟨a, b, 0, (t.filter fun r => r.coll_area = a ∧ r.bl_id = b).length⟩ : SRow) ∈
        (summarize_units t).2 ∧
    0 < (t.filter fun r => r.coll_area = a ∧ r.bl_id = b).length ∧
    (∃ fr ∈ (summarize_units t).1, fr.coll_area = a) ∧
    DWEL_UNITS_SQL 0 = false := by
  have hrepl : summarize_units (t.map fun r =>
      ⟨r.bl_id, r.coll_area, some (r.dwel_units.getD 0)⟩) = summarize_units t := by
    unfold summarize_units
    have hdf : toDataFrame (t.map fun r =>
        ⟨r.bl_id, r.coll_area, some (r.dwel_units.getD 0)⟩) = toDataFrame t := by
      unfold toDataFrame
      rw [List.map_map]
      rfl
    rw [hdf]
  rcases hmem with ⟨r0, hr0, hb0, ha0⟩
  have hgrp := key_filter_of_null t a b hnull
  have hdr : (⟨b, a, 0⟩ : DRow) ∈ queryLe6 (toDataFrame t) := by
    have h1 : (⟨b, a, 0⟩ : DRow) ∈ toDataFrame t := by
      have h2 := List.mem_map_of_mem
        (fun r : Row => (⟨r.bl_id, r.coll_area, r.dwel_units.getD 0⟩ : DRow)) hr0
      have hval : r0.dwel_units = none := hnull r0 hr0 hb0
      simpa [toDataFrame, hb0, ha0, hval] using h2
    exact List.mem_filter.mpr ⟨h1, by simp [queryLe6]⟩
  have hkey : (a, b) ∈ ((queryLe6 (toDataFrame t)).map dkey).dedup :=
    List.mem_dedup.mpr (List.mem_map.mpr ⟨⟨b, a, 0⟩, hdr, rfl⟩)
  have hzero : ∀ x ∈ (queryLe6 (toDataFrame t)).filter fun r => dkey r = (a, b),
      x.dwel_units = 0 := by
    intro x hx
    rw [hgrp] at hx
    rcases List.mem_map.mp hx with ⟨r, hrmem, hfx⟩
    obtain ⟨hrt, hrk⟩ := List.mem_filter.mp hrmem
    have hrb : r.bl_id = b := by
      simpa using (of_decide_eq_true hrk).2
    have hrn : r.dwel_units = none := hnull r hrt hrb
    rw [← hfx]
    simp [hrn]
  have hsrow : (⟨a, b, 0,
      (t.filter fun r => r.coll_area = a ∧ r.bl_id = b).length⟩ : SRow) ∈
      summaryOne (queryLe6 (toDataFrame t)) := by
    unfold summaryOne
    refine List.mem_map.mpr ⟨(a, b), hkey, ?_⟩
    have hsum : (((queryLe6 (toDataFrame t)).filter fun r => dkey r = (a, b)).map
        DRow.dwel_units).sum = 0 := by
      apply List.sum_eq_zero
      intro x hx
      rcases List.mem_map.mp hx with ⟨y, hy, hxy⟩
      rw [← hxy]
      exact hzero y hy
    have hlen : ((queryLe6 (toDataFrame t)).filter fun r => dkey r = (a, b)).length =
        (t.filter fun r => r.coll_area = a ∧ r.bl_id = b).length := by
      rw [hgrp]
      exact List.length_map ..
    simp [hsum, hlen]
  refine ⟨hrepl, hsrow, ?_, ?_, by decide⟩
  · have hr0f : r0 ∈ t.filter fun r => r.coll_area = a ∧ r.bl_id = b :=
      List.mem_filter.mpr ⟨hr0, by simp [ha0, hb0]⟩
    exact List.length_pos.mpr (List.ne_nil_of_mem hr0f)
  · apply locSetTotal_label_preserved
    have haa : a ∈ (summaryOne (queryLe6 (toDataFrame t))).map SRow.coll_area :=
      List.mem_map.mpr ⟨_, hsrow, rfl⟩
    exact ⟨_, List.mem_map.mpr ⟨a, List.mem_dedup.mpr haa, rfl⟩, rfl⟩

/-- Witness for C9: a single NULL-unit row in area "A1". -/
theorem null_units_counted_witness :
    (∀ r ∈ ([⟨"B1", "A1", none⟩] : List Row), r.bl_id = "B1" → r.dwel_units = none) ∧
    (summarize_units (([⟨"B1", "A1", none⟩] : List Row).map fun r =>
        ⟨r.bl_id, r.coll_area, some (r.dwel_units.getD 0)⟩) =
        summarize_units [⟨"B1", "A1", none⟩] ∧
      (⟨"A1", "B1", 0,
      (([⟨"B1", "A1", none⟩] : List Row).filter fun r =>
        r.coll_area = "A1" ∧ r.bl_id = "B1").length⟩ : SRow) ∈
        (summarize_units [⟨"B1", "A1", none⟩]).2 ∧
      0 < (([⟨"B1", "A1", none⟩] : List Row).filter fun r =>
        r.coll_area = "A1" ∧ r.bl_id = "B1").length ∧
      (∃ fr ∈ (summarize_units [⟨"B1", "A1", none⟩]).1, fr.coll_area = "A1") ∧
      DWEL_UNITS_SQL 0 = false) :=
  ⟨by decide, null_units_counted [⟨"B1", "A1", none⟩] "A1" "B1" (by decide)
    ⟨⟨"B1", "A1", none⟩, by decide, by decide, by decide⟩⟩

/-- With pairwise-distinct group keys every `(COLL_AREA, BL_ID)` group is
a singleton, so the first aggregation keeps one row per input row, with
its own unit value and building count 1. -/
theorem summaryOne_of_nodup_keys (df : List DRow) (h : (df.map dkey).Nodup) :
    summaryOne df = df.map fun r => ⟨r.coll_area, r.bl_id, r.dwel_units, 1⟩ := by
  unfold summaryOne
  rw [List.dedup_eq_self.mpr h, List.map_map]
  apply List.map_congr_left
  intro r hr
  have hgrp := filter_key_singleton dkey df h r hr
  simp only [Function.comp_apply, hgrp]
  simp [dkey]

/-- Re-grouping the singleton-group rows by area aggregates the
underlying DataFrame by area: per area, the sum of unit values and the
number of rows. -/
theorem groupFinal_of_unit_rows (df : List DRow) :
    groupFinal (df.map fun r => ⟨r.coll_area, r.bl_id, r.dwel_units, 1⟩) =
      ((df.map DRow.coll_area).dedup).map fun a =>
        ⟨a, ((df.filter fun r => r.coll_area = a).map DRow.dwel_units).sum,
          (df.filter fun r => r.coll_area = a).length⟩ := by
  unfold groupFinal
  have hlab : ((df.map fun r => (⟨r.coll_area, r.bl_id, r.dwel_units, 1⟩ : SRow)).map
      SRow.coll_area) = df.map DRow.coll_area := by
    rw [List.map_map]
    rfl
  rw [hlab]
  apply List.map_congr_left
  intro a _
  have hfil : ((df.map fun r => (⟨r.coll_area, r.bl_id, r.dwel_units, 1⟩ : SRow)).filter
      fun x => x.coll_area = a) =
      ((df.filter fun r => r.coll_area = a).map
        fun r => (⟨r.coll_area, r.bl_id, r.dwel_units, 1⟩ : SRow)) := by
    rw [filter_over_map]
  rw [hfil]
  simp only [List.map_map, List.length_map]
  rfl

/-- The row filter commutes with the DataFrame conversion. -/
theorem queryLe6_toDataFrame (t : List Row) :
    queryLe6 (toDataFrame t) = toDataFrame (t.filter fun r => r.dwel_units.getD 0 ≤ 6) := by
  unfold queryLe6 toDataFrame
  rw [filter_over_map]

/-- Code side of C1: on a table with one row per building, the pre-`loc`
aggregated table is the canonical per-area aggregation of the rows that
pass the ≤ 6 filter. -/
theorem groupFinal_eq_areaRowsOf (t : List Row) (hnd : (t.map Row.bl_id).Nodup) :
    groupFinal (summaryOne (queryLe6 (toDataFrame t))) =
      areaRowsOf (t.filter fun r => r.dwel_units.getD 0 ≤ 6) := by
  have hsub : (t.filter fun r => r.dwel_units.getD 0 ≤ 6).Sublist t := List.filter_sublist t
  have hbl : ((t.filter fun r => r.dwel_units.getD 0 ≤ 6).map Row.bl_id).Nodup :=
    hnd.sublist (hsub.map Row.bl_id)
  have hkeys : ((toDataFrame (t.filter fun r => r.dwel_units.getD 0 ≤ 6)).map dkey).Nodup := by
    have hsnd : (((toDataFrame (t.filter fun r => r.dwel_units.getD 0 ≤ 6)).map dkey).map
        Prod.snd) = (t.filter fun r => r.dwel_units.getD 0 ≤ 6).map Row.bl_id := by
      unfold toDataFrame
      rw [List.map_map, List.map_map]
      rfl
    exact (hsnd ▸ hbl).of_map Prod.snd
  rw [queryLe6_toDataFrame, summaryOne_of_nodup_keys _ hkeys, groupFinal_of_unit_rows]
  unfold areaRowsOf
  have hcoll : ((toDataFrame (t.filter fun r => r.dwel_units.getD 0 ≤ 6)).map
      DRow.coll_area) = (t.filter fun r => r.dwel_units.getD 0 ≤ 6).map Row.coll_area := by
    unfold toDataFrame
    rw [List.map_map]
    rfl
  rw [hcoll]
  apply List.map_congr_left
  intro a _
  have hfil : ((toDataFrame (t.filter fun r => r.dwel_units.getD 0 ≤ 6)).filter
      fun r => r.coll_area = a) =
      toDataFrame ((t.filter fun r => r.dwel_units.getD 0 ≤ 6).filter
        fun r => r.coll_area = a) := by
    unfold toDataFrame
    rw [filter_over_map]
  rw [hfil]
  unfold toDataFrame
  simp only [List.map_map, List.length_map]
  rfl

/-- Specification side of C1: on a table with one row per building, the
specification's area rows are the same canonical per-area aggregation of
the rows that pass the ≤ 6 filter — one row per building makes the
per-building total equal the row value. -/
theorem specAreaRows_eq_areaRowsOf (t : List Row) (hnd : (t.map Row.bl_id).Nodup) :
    specAreaRows t = areaRowsOf (t.filter fun r => r.dwel_units.getD 0 ≤ 6) := by
  have s2 : ∀ r ∈ t, specUnitsOf t r.bl_id = r.dwel_units.getD 0 := by
    intro r hr
    unfold specUnitsOf
    rw [filter_key_singleton Row.bl_id t hnd r hr]
    simp
  have s3 : ∀ r ∈ t, specAreaOf t r.bl_id = r.coll_area := by
    intro r hr
    unfold specAreaOf
    rw [find_key_eq Row.bl_id t hnd r hr]
    rfl
  have s4 : specKept t = (t.filter fun r => r.dwel_units.getD 0 ≤ 6).map Row.bl_id := by
    unfold specKept specBuildings
    rw [List.dedup_eq_self.mpr hnd, filter_over_map]
    congr 1
    apply List.filter_congr
    intro r hr
    simp [s2 r hr]
  have s5 : (specKept t).map (specAreaOf t) =
      (t.filter fun r => r.dwel_units.getD 0 ≤ 6).map Row.coll_area := by
    rw [s4, List.map_map]
    apply List.map_congr_left
    intro r hr
    exact s3 r (List.mem_of_mem_filter hr)
  unfold specAreaRows areaRowsOf
  rw [s5]
  apply List.map_congr_left
  intro a _
  have s6 : ((specKept t).filter fun b => specAreaOf t b = a) =
      (((t.filter fun r => r.dwel_units.getD 0 ≤ 6).filter
        fun r => r.coll_area = a).map Row.bl_id) := by
    rw [s4, filter_over_map]
    congr 1
    apply List.filter_congr
    intro r hr
    simp [s3 r (List.mem_of_mem_filter hr)]
  have s7 : ((((t.filter fun r => r.dwel_units.getD 0 ≤ 6).filter
      fun r => r.coll_area = a).map Row.bl_id).map (specUnitsOf t)) =
      (((t.filter fun r => r.dwel_units.getD 0 ≤ 6).filter
        fun r => r.coll_area = a).map fun r => r.dwel_units.getD 0) := by
    rw [List.map_map]
    apply List.map_congr_left
    intro r hr
    exact s2 r (List.mem_of_mem_filter (List.mem_of_mem_filter hr))
  simp only [s6, s7, List.length_map]

/-- C1 (amended): for every input table with at most one row per building
identifier and no collection area labelled "TOTAL" (both hold for the flat
table the geometry pipeline hands over), the per-collection-area rows of
the aggregated report returned by `summarize_units` are exactly the rows
the specification describes: for each area, the unit total and building
count over exactly the buildings of that area whose per-building unit
total is at most 6.  (When a building has several rows the filter of
line 77 is applied per row, not to the per-building total; see the
counterexample.) -/
theorem summarize_units_area_rows (t : List Row)
    (hnd : (t.map Row.bl_id).Nodup)
    (hTot : "TOTAL" ∉ t.map Row.coll_area) :
    (summarize_units t).1.dropLast = specAreaRows t := by
  have hlab : ∀ fr ∈ groupFinal (summaryOne (queryLe6 (toDataFrame t))),
      fr.coll_area ≠ "TOTAL" :=
    fun fr hfr he => hTot (he ▸ final_label_mem t fr hfr)
  have h1 : (summarize_units t).1 =
      locSetTotal (groupFinal (summaryOne (queryLe6 (toDataFrame t)))) := rfl
  rw [h1, locSetTotal_append _ hlab, List.dropLast_concat,
    groupFinal_eq_areaRowsOf t hnd, specAreaRows_eq_areaRowsOf t hnd]

/-- Witness for C1: three buildings, one row each — "B2" has 9 units and
is excluded, "B3" has NULL units (counted as 0) and is included. -/
theorem summarize_units_area_rows_witness :
    (([⟨"B1", "A1", some 3⟩, ⟨"B2", "A1", some 9⟩, ⟨"B3", "A2", none⟩] : List Row).map
      Row.bl_id).Nodup ∧
    ("TOTAL" ∉ ([⟨"B1", "A1", some 3⟩, ⟨"B2", "A1", some 9⟩, ⟨"B3", "A2", none⟩] : List Row).map
      Row.coll_area) ∧
    (summarize_units [⟨"B1", "A1", some 3⟩, ⟨"B2", "A1", some 9⟩, ⟨"B3", "A2", none⟩]).1.dropLast =
      specAreaRows [⟨"B1", "A1", some 3⟩, ⟨"B2", "A1", some 9⟩, ⟨"B3", "A2", none⟩] :=
  ⟨by decide, by decide,
    summarize_units_area_rows
      [⟨"B1", "A1", some 3⟩, ⟨"B2", "A1", some 9⟩, ⟨"B3", "A2", none⟩]
      (by decide) (by decide)⟩
